import Mathlib

/-!
Verification of the logging dispatch layer of toolbox-cpp
(`toolbox/sys/Logger.hpp`): severity levels and the level gate, the
global backend/level dispatch state, the scoped backend override, and
the stream-insertion of levels.

The header is embedded directly.  Function bodies that live in the
corresponding translation unit (`set_logger`, `set_log_level`,
`get_log_level`, `get_logger`, `log_label`, the free `write_log`, and
the concrete logger singletons) are modelled from the specification, as
marked on each definition.  Global mutable state is made explicit as a
`DispatchState` value threaded through the operations.
-/

namespace Toolbox

/-- `enum class LogLevel : int { Crit, Error, Warning, Notice, Info, Debug }`
from `Logger.hpp`.  Lower ordinal = more severe. -/
inductive LogLevel : Type where
  | Crit
  | Error
  | Warning
  | Notice
  | Info
  | Debug
deriving DecidableEq, Repr

/-- The underlying `int` value of each enumerator (C++ assigns 0..5 in
declaration order).  `enum class` comparisons such as the one in
`is_log_level` compare these values. -/
def LogLevel.toOrdinal : LogLevel → Int
  | .Crit => 0
  | .Error => 1
  | .Warning => 2
  | .Notice => 3
  | .Info => 4
  | .Debug => 5

/-- Logger identities.  The spec's closed variant set is
{Discard/null, StandardStream, SystemLog}; `user` covers further
`Logger` subclasses, which the dispatch state treats opaquely (the
global slot holds a reference to exactly one `Logger`). -/
inductive Logger : Type where
  | null
  | std
  | sys
  | user (id : Nat)
deriving DecidableEq, Repr

/-- Modelled from the spec: `null_logger()` returns the discarding
singleton ("Null logger. This logger does nothing and is effectively
/dev/null."). -/
def null_logger : Logger := Logger.null

/-- Modelled from the spec: `std_logger()` returns the standard-stream
singleton. -/
def std_logger : Logger := Logger.std

/-- Modelled from the spec: `log_label` returns a fixed human-readable
label for each level; total over the enumeration, from the closed set
of short ASCII words. -/
def log_label : LogLevel → String
  | .Crit => "CRIT"
  | .Error => "ERROR"
  | .Warning => "WARN"
  | .Notice => "NOTICE"
  | .Info => "INFO"
  | .Debug => "DEBUG"

/-- The two process-wide mutable fields of the global dispatch state:
the current minimum level and the current backend reference. -/
structure DispatchState : Type where
  logLevel : LogLevel
  logger : Logger
deriving DecidableEq, Repr

/-- Modelled from the spec: `get_log_level()` atomically reads the
current minimum level. -/
def get_log_level (s : DispatchState) : LogLevel := s.logLevel

/-- Modelled from the spec: `set_log_level(level)` atomically replaces
the current minimum level and returns the previous value. -/
def set_log_level (level : LogLevel) (s : DispatchState) :
    LogLevel × DispatchState :=
  (s.logLevel, { s with logLevel := level })

/-- Modelled from the spec: `get_logger()` atomically returns the
currently installed backend reference. -/
def get_logger (s : DispatchState) : Logger := s.logger

/-- Modelled from the spec: `set_logger(logger)` atomically installs
`logger` as current and returns the previous backend reference. -/
def set_logger (l : Logger) (s : DispatchState) : Logger × DispatchState :=
  (s.logger, { s with logger := l })

/-- `inline bool is_log_level(LogLevel level)` from `Logger.hpp`:
`return level <= get_log_level();` (enum-class `<=` compares underlying
ints). -/
def is_log_level (level : LogLevel) (s : DispatchState) : Bool :=
  decide (level.toOrdinal ≤ (get_log_level s).toOrdinal)

/-- `inline Logger& set_logger(std::nullptr_t)` from `Logger.hpp`:
`return set_logger(null_logger());`. -/
def set_logger_nullptr (s : DispatchState) : Logger × DispatchState :=
  set_logger null_logger s

/-- One output side effect of a backend: a write to one of the two
standard streams, a syslog submission, or a user backend's own effect. -/
inductive OutputEvent : Type where
  | write (stream : Bool) (text : String)
  | syslogEvent (level : LogLevel) (text : String)
  | custom (id : Nat) (level : LogLevel) (text : String)
deriving DecidableEq, Repr

/-- Stream selector: `true` is the error-style stream (stderr), `false`
the standard output stream (stdout). -/
def stderrStream : Bool := true

/-- The standard output stream selector. -/
def stdoutStream : Bool := false

/-- Modelled from the spec: the StandardStream backend routes messages
strictly more severe than Warning to the error-style stream and all
others to the standard output stream. -/
def std_stream_for : LogLevel → Bool
  | .Crit => stderrStream
  | .Error => stderrStream
  | .Warning => stdoutStream
  | .Notice => stdoutStream
  | .Info => stdoutStream
  | .Debug => stdoutStream

/-- Modelled from the spec: the StandardStream backend writes the
level's label, then the message bytes (the first `size` bytes of the
buffer), then a line terminator, on the stream chosen by severity. -/
def std_write (level : LogLevel) (msg : String) (size : Nat) :
    List OutputEvent :=
  [OutputEvent.write (std_stream_for level)
    (log_label level ++ msg.take size ++ "\n")]

/-- Modelled from the spec: each backend variant's `do_write_log`
override.  Discard is a no-op; StandardStream writes label, bytes and
terminator to a stream chosen by severity; SystemLog forwards to the
platform facility; a user backend performs its own effect. -/
def Logger.do_write_log (l : Logger) (level : LogLevel) (msg : String)
    (size : Nat) : List OutputEvent :=
  match l with
  | .null => []
  | .std => std_write level msg size
  | .sys => [OutputEvent.syslogEvent level (msg.take size)]
  | .user id => [OutputEvent.custom id level (msg.take size)]

/-- `Logger::write_log` from `Logger.hpp`: forwards to the virtual
`do_write_log`. -/
def Logger.write_log (l : Logger) (level : LogLevel) (msg : String)
    (size : Nat) : List OutputEvent :=
  l.do_write_log level msg size

/-- The accept call that the free `write_log` hands to the backend:
which logger was invoked, and the level, buffer and logical size it
received. -/
structure AcceptCall : Type where
  target : Logger
  level : LogLevel
  msg : String
  size : Nat
deriving DecidableEq, Repr

/-- Modelled from the spec: the free `write_log(level, msg, size)`
unconditionally forwards level, buffer and logical size to the current
logger, without checking `is_log_level`. -/
def write_log (level : LogLevel) (msg : String) (size : Nat)
    (s : DispatchState) : AcceptCall :=
  { target := get_logger s, level := level, msg := msg, size := size }

/-- The external output produced when an accept call runs on its target
backend. -/
def AcceptCall.run (c : AcceptCall) : List OutputEvent :=
  c.target.write_log c.level c.msg c.size

/-- The output of a sequence of `write_log` calls against a fixed
dispatch state (emitting does not mutate the dispatch state). -/
def run_emits (calls : List (LogLevel × String × Nat))
    (s : DispatchState) : List OutputEvent :=
  match calls with
  | [] => []
  | c :: rest => (write_log c.1 c.2.1 c.2.2 s).run ++ run_emits rest s

/-- `ScopedLogger` from `Logger.hpp`: holds the previously installed
backend, captured at construction. -/
structure ScopedLogger : Type where
  prev_ : Logger
deriving DecidableEq, Repr

/-- The `ScopedLogger(Logger&)` constructor:
`prev_{set_logger(logger)}`. -/
def ScopedLogger.construct (logger : Logger) (s : DispatchState) :
    ScopedLogger × DispatchState :=
  let r := set_logger logger s
  ({ prev_ := r.1 }, r.2)

/-- The `~ScopedLogger` destructor: `set_logger(prev_);`, run
unconditionally on scope exit. -/
def ScopedLogger.destruct (sl : ScopedLogger) (s : DispatchState) :
    DispatchState :=
  (set_logger sl.prev_ s).2

/-- A dispatch-layer operation that a scope body may perform between
construction and destruction (single-threaded; emitting does not touch
the state). -/
inductive LogOp : Type where
  | setLoggerOp (l : Logger)
  | setLogLevelOp (level : LogLevel)
  | writeLogOp (level : LogLevel) (msg : String) (size : Nat)
deriving DecidableEq, Repr

/-- Whether the operation is a `set_log_level` call. -/
def LogOp.touchesLevel : LogOp → Bool
  | .setLogLevelOp _ => true
  | _ => false

/-- The state transition of one dispatch-layer operation. -/
def applyOp : LogOp → DispatchState → DispatchState
  | .setLoggerOp l, s => (set_logger l s).2
  | .setLogLevelOp level, s => (set_log_level level s).2
  | .writeLogOp _ _ _, s => s

/-- The state after a sequence of dispatch-layer operations. -/
def applyOps : List LogOp → DispatchState → DispatchState
  | [], s => s
  | op :: ops, s => applyOps ops (applyOp op s)

/-- The stream-insertion of a C string: an output stream is modelled by
the byte string written to it so far; `os << t` appends `t` and returns
the stream. -/
def ostream_insert_cstr (os : String) (t : String) : String :=
  os ++ t

/-- `operator<<(std::ostream&, LogLevel)` from `Logger.hpp`:
`return os << log_label(level);`. -/
def ostream_insert_loglevel (os : String) (level : LogLevel) : String :=
  ostream_insert_cstr os (log_label level)

/-- Helper: a sequence of operations none of which is `set_log_level`
leaves the current minimum level unchanged. -/
theorem applyOps_preserves_level (ops : List LogOp) (s : DispatchState)
    (h : ∀ op ∈ ops, op.touchesLevel = false) :
    get_log_level (applyOps ops s) = get_log_level s := by
  induction ops generalizing s with
  | nil => rfl
  | cons op rest ih =>
    have hop := h op (List.mem_cons_self op rest)
    have hrest : ∀ o ∈ rest, o.touchesLevel = false := fun o ho =>
      h o (List.mem_cons_of_mem op ho)
    cases op with
    | setLoggerOp l =>
      simpa [applyOps, applyOp, set_logger, get_log_level] using
        ih ((set_logger l s).2) hrest
    | setLogLevelOp l => simp [LogOp.touchesLevel] at hop
    | writeLogOp a b c =>
      simpa [applyOps, applyOp] using ih s hrest

/-- Claim C1: `is_log_level L` returns true iff L's ordinal is less
than or equal to the current minimum level's ordinal, under the
enumeration order Crit < Error < Warning < Notice < Info < Debug
(lower ordinal = more severe). -/
theorem is_log_level_iff_ordinal_le (s : DispatchState) (level : LogLevel) :
    (is_log_level level s = true ↔
      level.toOrdinal ≤ (get_log_level s).toOrdinal)
    ∧ LogLevel.Crit.toOrdinal < LogLevel.Error.toOrdinal
    ∧ LogLevel.Error.toOrdinal < LogLevel.Warning.toOrdinal
    ∧ LogLevel.Warning.toOrdinal < LogLevel.Notice.toOrdinal
    ∧ LogLevel.Notice.toOrdinal < LogLevel.Info.toOrdinal
    ∧ LogLevel.Info.toOrdinal < LogLevel.Debug.toOrdinal := by
  refine ⟨?_, by decide, by decide, by decide, by decide, by decide⟩
  simp [is_log_level]

/-- Claim C2: the free `write_log` unconditionally forwards the level,
buffer and logical size to the currently installed backend, without
checking the level gate; in particular, with a level for which
`is_log_level` is false it still invokes the current backend. -/
theorem write_log_unconditional (s : DispatchState) (level : LogLevel)
    (msg : String) (size : Nat) :
    write_log level msg size s =
      { target := get_logger s, level := level, msg := msg, size := size }
    ∧ (is_log_level level s = false →
        (write_log level msg size s).target = get_logger s ∧
        (write_log level msg size s).run =
          (get_logger s).write_log level msg size) :=
  ⟨rfl, fun _ => ⟨rfl, rfl⟩⟩

/-- Witness for C2 at a concrete disabled level: with minimum level
Info and the standard logger installed, Debug is gated off, yet
`write_log` still produces the accept call on the standard logger. -/
theorem write_log_unconditional_witness :
    is_log_level LogLevel.Debug ⟨LogLevel.Info, Logger.std⟩ = false ∧
    (write_log LogLevel.Debug ("x") 1 ⟨LogLevel.Info, Logger.std⟩).run =
      Logger.std.write_log LogLevel.Debug ("x") 1 :=
  ⟨by decide,
    ((write_log_unconditional ⟨LogLevel.Info, Logger.std⟩ LogLevel.Debug
      ("x") 1).2 (by decide)).2⟩

/-- Claim C3: constructing a `ScopedLogger` with backend B makes B
current, and destruction — after any sequence of intervening
dispatch-layer operations, i.e. on every exit path of the scope —
makes the backend that was current before construction current again. -/
theorem scoped_logger_round_trip (s : DispatchState) (b : Logger)
    (ops : List LogOp) :
    get_logger (ScopedLogger.construct b s).2 = b ∧
    get_logger
      ((ScopedLogger.construct b s).1.destruct
        (applyOps ops (ScopedLogger.construct b s).2)) = get_logger s :=
  ⟨rfl, rfl⟩

/-- Claim C4: scoped overrides nest LIFO: with initial backend A,
entering override(C) then override(B) and exiting in reverse order
restores C after the inner exit and A after the outer exit. -/
theorem scoped_logger_nesting (s : DispatchState) (c b : Logger) :
    get_logger (ScopedLogger.construct c s).2 = c ∧
    get_logger (ScopedLogger.construct b (ScopedLogger.construct c s).2).2 = b ∧
    get_logger
      ((ScopedLogger.construct b (ScopedLogger.construct c s).2).1.destruct
        (ScopedLogger.construct b (ScopedLogger.construct c s).2).2) = c ∧
    get_logger
      ((ScopedLogger.construct c s).1.destruct
        ((ScopedLogger.construct b (ScopedLogger.construct c s).2).1.destruct
          (ScopedLogger.construct b (ScopedLogger.construct c s).2).2)) =
      get_logger s :=
  ⟨rfl, rfl, rfl, rfl⟩

/-- Claim C5: `set_logger B` installs B and returns the backend that
was current immediately before the call; calling `set_logger` again
with that returned value restores the state exactly (round-trip). -/
theorem set_logger_round_trip (s : DispatchState) (b : Logger) :
    (set_logger b s).2.logger = b ∧
    (set_logger b s).1 = get_logger s ∧
    (set_logger (set_logger b s).1 (set_logger b s).2).2 = s := by
  refine ⟨rfl, rfl, ?_⟩
  cases s
  rfl

/-- Claim C6: `set_logger(nullptr)` behaves identically to installing
the null (Discard) logger, including returning the previously installed
backend, and any number of subsequent `write_log` calls produce no
observable external output, for every level, message and size. -/
theorem set_logger_nullptr_discards (s : DispatchState)
    (calls : List (LogLevel × String × Nat)) :
    set_logger_nullptr s = set_logger null_logger s ∧
    (set_logger_nullptr s).1 = get_logger s ∧
    run_emits calls (set_logger_nullptr s).2 = [] := by
  refine ⟨rfl, rfl, ?_⟩
  induction calls with
  | nil => rfl
  | cons c rest ih =>
    simpa [run_emits, AcceptCall.run, write_log, Logger.write_log,
      Logger.do_write_log, set_logger_nullptr, set_logger, get_logger,
      null_logger] using ih

/-- Claim C7: monotonicity of the gate: for a fixed current minimum
level, if a less severe level passes the gate then every more severe
level passes it too. -/
theorem is_log_level_monotone (s : DispatchState) (l1 l2 : LogLevel)
    (h : l1.toOrdinal < l2.toOrdinal) (h2 : is_log_level l2 s = true) :
    is_log_level l1 s = true := by
  simp only [is_log_level, decide_eq_true_eq] at h2 ⊢
  omega

/-- Witness for C7: Crit is more severe than Debug; with minimum level
Debug, Debug passes the gate, hence so does Crit. -/
theorem is_log_level_monotone_witness :
    is_log_level LogLevel.Crit ⟨LogLevel.Debug, Logger.null⟩ = true :=
  is_log_level_monotone ⟨LogLevel.Debug, Logger.null⟩ LogLevel.Crit
    LogLevel.Debug (by decide) (by decide)

/-- Claim C8: `set_log_level L` replaces the current minimum level and
returns the previous value, and with no interleaving `set_log_level`
calls, `get_log_level` returns L until the next `set_log_level`. -/
theorem set_log_level_round_trip (s : DispatchState) (level : LogLevel)
    (ops : List LogOp) (h : ∀ op ∈ ops, op.touchesLevel = false) :
    (set_log_level level s).1 = get_log_level s ∧
    get_log_level (applyOps ops (set_log_level level s).2) = level := by
  refine ⟨rfl, ?_⟩
  rw [applyOps_preserves_level ops (set_log_level level s).2 h]
  rfl

/-- Witness for C8: after `set_log_level Debug`, a `set_logger` and a
`write_log` in between do not disturb the level read back. -/
theorem set_log_level_round_trip_witness :
    get_log_level
      (applyOps [LogOp.setLoggerOp Logger.std,
                 LogOp.writeLogOp LogLevel.Crit ("m") 1]
        (set_log_level LogLevel.Debug ⟨LogLevel.Info, Logger.null⟩).2) =
      LogLevel.Debug :=
  (set_log_level_round_trip ⟨LogLevel.Info, Logger.null⟩ LogLevel.Debug
    [LogOp.setLoggerOp Logger.std, LogOp.writeLogOp LogLevel.Crit ("m") 1]
    (by decide)).2

/-- Claim C9: the standard-stream backend routes every accepted message
strictly more severe than Warning to the error-style stream and all
others to the standard output stream, writing the level's label, then
the message bytes, then a line terminator. -/
theorem std_logger_routing (level : LogLevel) (msg : String) (size : Nat) :
    std_logger.write_log level msg size =
      [OutputEvent.write
        (if level.toOrdinal < LogLevel.Warning.toOrdinal then stderrStream
          else stdoutStream)
        (log_label level ++ msg.take size ++ "\n")] := by
  cases level <;>
    simp [std_logger, Logger.write_log, Logger.do_write_log, std_write,
      std_stream_for, LogLevel.toOrdinal]

/-- Claim C10: `operator<<(ostream, LogLevel)` writes exactly the label
string `log_label level` to the stream and nothing else, and returns
that stream. -/
theorem ostream_insert_loglevel_exact (os : String) (level : LogLevel) :
    ostream_insert_loglevel os level = os ++ log_label level ∧
    (ostream_insert_loglevel os level).length =
      os.length + (log_label level).length := by
  refine ⟨rfl, ?_⟩
  simp [ostream_insert_loglevel, ostream_insert_cstr]

end Toolbox
